import Mathlib

/-!
Shallow embedding of the Attrition desktop client (`main.js`,
`configHelpers.js`) for checking the natural-language specification.

The configuration store persists one JSON document; we model the possible
on-disk states of that document (`ConfigFile`) and the helper functions of
`configHelpers.js` as pure state transformers.  The download-and-extract
pipeline (`download-event-liveries` IPC handler in `main.js`) is modelled as
a total function from an environment describing the behaviour of the
network, of the filesystem and of the user dialogs.  Exceptions thrown
inside the JavaScript handler and caught by its `try/catch` chain are
turned into the structured result object, exactly as the source does; but
two failure channels bypass every `catch` and are modelled as such: the
pump writes to an `fs.createWriteStream` that never gets an `error`
listener (a write failure raises an uncaught `error`-event exception, or
parks the pump forever on a `drain` that never fires), and during
extraction only the `unzipper.Extract` stream is listened to, while
`.pipe()` does not forward errors of the `fs.createReadStream` source.  A
handler invocation therefore either `returns` a result object, ends in an
uncaught `fault`, or `hangs` (`HandlerTermination`).  Filesystem writes of
the config store are modelled as succeeding (the source catches write
errors and returns `false`, leaving the file as it was); the claims under
check concern the functional behaviour on the successful path.
-/

namespace Attrition

/-- The built-in default server URL (`'https://blancpaw-gt.uk'` in
`readSavedUrl`). -/
def defaultUrl : String := "https://blancpaw-gt.uk"

/-- The fields of the persisted JSON configuration document.  The source
reads and writes the keys `url`, `liveryDirectory`, `documentsFolder` and
`minimizeToTray`; we also carry a `serverUrl` field because a JSON document
may hold that key (the specification speaks of a `serverUrl` field) — the
code of `configHelpers.js` never touches it. -/
structure ConfigRecord where
  url : Option String
  serverUrl : Option String
  liveryDirectory : Option String
  documentsFolder : Option String
  minimizeToTray : Option Bool
deriving Repr, DecidableEq

/-- The empty JSON object `{}`. -/
def ConfigRecord.empty : ConfigRecord :=
  ⟨none, none, none, none, none⟩

/-- On-disk state of the config file: absent, present but unreadable or not
valid JSON, or a parsed record. -/
inductive ConfigFile where
  | missing : ConfigFile
  | corrupt : ConfigFile
  | record : ConfigRecord → ConfigFile
deriving Repr, DecidableEq

/-- `fs.existsSync(getConfigPath())`: the file exists also when its content
is unreadable or corrupt. -/
def configFileExists : ConfigFile → Bool
  | .missing => false
  | .corrupt => true
  | .record _ => true

/-- `readSavedConfig`: parsed JSON from the store path, `{}` when the file
is absent or reading/parsing throws (the source catches and falls through to
`return {}`). -/
def readSavedConfig : ConfigFile → ConfigRecord
  | .missing => ConfigRecord.empty
  | .corrupt => ConfigRecord.empty
  | .record r => r

/-- JavaScript truthiness of an optional string value: `undefined`, `null`
and the empty string are falsy. -/
def truthyStr : Option String → Option String
  | none => none
  | some s => if s = "" then none else some s

/-- `readSavedUrl`: returns `data.url || 'https://blancpaw-gt.uk'` when the
file exists and parses, and the default on a missing file or on any
read/parse error (caught). -/
def readSavedUrl (f : ConfigFile) : String :=
  match f with
  | .missing => defaultUrl
  | .corrupt => defaultUrl
  | .record r =>
    match truthyStr r.url with
    | some u => u
    | none => defaultUrl

/-- `saveUrl(url)`: builds the fresh object `const config = { url }` and
overwrites the store path with it — no read-modify-write. -/
def saveUrl (url : String) (_ : ConfigFile) : ConfigFile :=
  .record { ConfigRecord.empty with url := some url }

/-- `saveConfig(config)`: serializes the given record and overwrites the
store path. -/
def saveConfig (c : ConfigRecord) (_ : ConfigFile) : ConfigFile :=
  .record c

/-- `saveMinimizeToTrayPreference(shouldMinimize)`: reads the full record,
sets `minimizeToTray`, writes the full record back. -/
def saveMinimizeToTrayPreference (shouldMinimize : Bool) (f : ConfigFile) :
    ConfigFile :=
  saveConfig { readSavedConfig f with minimizeToTray := some shouldMinimize } f

/-- `saveConfiguredLiveryDirectory(directory)`: reads the full record, sets
`liveryDirectory`, writes the full record back.  (Exported by
`configHelpers.js` but not imported by `main.js`.) -/
def saveConfiguredLiveryDirectory (directory : String) (f : ConfigFile) :
    ConfigFile :=
  saveConfig { readSavedConfig f with liveryDirectory := some directory } f

/-- `getConfiguredLiveryDirectory`:
`config.liveryDirectory || config.documentsFolder || null` — JavaScript
`||`, so an empty string is skipped like an absent key. -/
def getConfiguredLiveryDirectory (f : ConfigFile) : Option String :=
  let c := readSavedConfig f
  match truthyStr c.liveryDirectory with
  | some d => some d
  | none => truthyStr c.documentsFolder

/-- Result of `selectDocumentsFolder` as observed by its callers: the user
cancelled, a directory path was produced, or the helper threw
(`Failed to select documents folder: …`). -/
inductive FolderResult where
  | canceled : FolderResult
  | selected : String → FolderResult
  | threwMsg : String → FolderResult
deriving Repr, DecidableEq

/-- Result object of the `select-documents-folder` IPC handler. -/
inductive SelectFolderReply where
  | canceled : SelectFolderReply
  | path : String → SelectFolderReply
  | raised : String → SelectFolderReply
deriving Repr, DecidableEq

/-- The `select-documents-folder` IPC handler of `main.js`: forwards
`selectDocumentsFolder()`; when a directory was selected it persists it with
`config.documentsFolder = result.path; saveConfig(config)` after reading the
full record. -/
def selectDocumentsFolderHandler (fr : FolderResult) (f : ConfigFile) :
    ConfigFile × SelectFolderReply :=
  match fr with
  | .canceled => (f, .canceled)
  | .selected p =>
    let c := readSavedConfig f
    (saveConfig { c with documentsFolder := some p } f, .path p)
  | .threwMsg m => (f, .raised m)

/-- Which window `initializeApp` creates at startup. -/
inductive StartupWindow where
  | configWindow : StartupWindow
  | mainWindow : StartupWindow
deriving Repr, DecidableEq

/-- The startup branch of `initializeApp`: show the configuration window
exactly when `readSavedUrl() === 'https://blancpaw-gt.uk'` and
`!fs.existsSync(getConfigPath())`; otherwise create the main window. -/
def initializeAppStartup (f : ConfigFile) : StartupWindow :=
  if readSavedUrl f = defaultUrl ∧ configFileExists f = false then
    .configWindow
  else
    .mainWindow

/-- JavaScript `String.prototype.startsWith` on character lists. -/
def listHasPrefix : List Char → List Char → Bool
  | _, [] => true
  | [], _ :: _ => false
  | c :: cs, p :: ps => c = p && listHasPrefix cs ps

/-- Substring occurrence on character lists: `pat` occurs somewhere in `s`. -/
def listHasSub : List Char → List Char → Bool
  | [], pat => pat.isEmpty
  | c :: rest, pat => listHasPrefix (c :: rest) pat || listHasSub rest pat

/-- JavaScript `String.prototype.includes`. -/
def strIncludes (s pat : String) : Bool :=
  listHasSub s.data pat.data

/-- How the streamed write of a 2xx body to the temporary file behaves.
The pump reads from `response.body.getReader()` and writes to
`fs.createWriteStream(destPath)`, which never gets an `error` listener:
  - `ok`: the pump runs to completion (file fully written);
  - `readerError`: `reader.read()` rejects mid-transfer; the rejection
    propagates through `await pump()` into the attempt's `catch` (the write
    stream has already created the file);
  - `writeError`: the write stream emits `error` (open failure, disk full,
    permission).  No listener is attached, so Node raises an uncaught
    `error`-event exception on a later tick — the surrounding `try/catch`
    never sees it and the fault escapes the whole handler.  `created` tells
    whether the destination file had been created before the fault (false
    when the open itself failed);
  - `writeHang`: `writer.write` returned `false` and the `drain` event
    never fires (the errored sink emits no `drain`), so the pump awaits
    forever and the handler's invocation never completes. -/
inductive StreamBehavior where
  | ok : StreamBehavior
  | readerError : String → StreamBehavior
  | writeError : String → Bool → StreamBehavior
  | writeHang : StreamBehavior
deriving Repr, DecidableEq

/-- One HTTP response as the handler observes it.  `contentLength` models
the declared `content-length` header: `none` when absent, `some n` for a
numeric header value (a numeric header string is always truthy in
JavaScript, and `parseInt` of a non-numeric header is `NaN`, which fails the
`> 1000` comparison just like an absent header).  `stream` is how the
streamed write to the destination file behaves when the attempt reaches
it. -/
structure FetchResponse where
  status : Nat
  statusText : String
  contentType : Option String
  contentLength : Option Nat
  bodyText : String
  stream : StreamBehavior

/-- Outcome of one `fetch` attempt: the fetch itself (or `response.text()`)
threw before anything was written — timeout, connection error — or a
response arrived. -/
inductive FetchOutcome where
  | netError : String → FetchOutcome
  | response : FetchResponse → FetchOutcome

/-- `Authentication required: ${status} ${statusText}. …` (non-2xx 401/403
branch). -/
def authStatusMsg (status : Nat) (statusText : String) : String :=
  "Authentication required: " ++ toString status ++ " " ++ statusText ++
    ". Please ensure you're logged into the web application."

/-- `File not found: ${status} ${statusText}` (404 branch). -/
def notFoundMsg (status : Nat) (statusText : String) : String :=
  "File not found: " ++ toString status ++ " " ++ statusText

/-- `Failed to download: ${status} ${statusText}` (other non-2xx). -/
def downloadFailMsg (status : Nat) (statusText : String) : String :=
  "Failed to download: " ++ toString status ++ " " ++ statusText

/-- Message thrown when the sniffed HTML body carries one of the
authentication markers. -/
def htmlAuthMsg : String :=
  "Authentication required or access denied. Received HTML page instead of ZIP file. Please ensure you're logged into the web application."

/-- Message thrown when the sniffed HTML body looks like a homepage. -/
def homepageMsg : String :=
  "Failed to download ZIP: Server returned homepage instead of livery archive. This typically means you need to be logged into the web application."

/-- Message thrown for other sniffed HTML bodies. -/
def htmlGenericMsg (status : Nat) : String :=
  "Failed to download ZIP: Received HTML content instead of ZIP file. Status: " ++
    toString status

/-- What one iteration of the retry loop does to the attempt: return
normally (file fully written); throw before the write stream was opened
(caught by the attempt's `catch`); throw while streaming through a reader
rejection (caught, destination file already created); or leave the
`try/catch` behind entirely — an unlistened write-stream `error` event
escaping as an uncaught exception (`writeStreamFault`, with the flag
telling whether the file had been created), or a pump parked forever on a
`drain` that never fires (`writeStreamHang`). -/
inductive AttemptStep where
  | success : AttemptStep
  | failBeforeWrite : String → AttemptStep
  | failDuringStream : String → AttemptStep
  | writeStreamFault : String → Bool → AttemptStep
  | writeStreamHang : AttemptStep

/-- Whether an attempt step leaves the retry loop's `try/catch` behind
(uncaught fault or hang) instead of returning or throwing catchably. -/
def stepEscapes : AttemptStep → Bool
  | .writeStreamFault _ _ => true
  | .writeStreamHang => true
  | _ => false

/-- The body of one attempt of `downloadFileWithRetry`, from the `fetch`
call to `return destPath`: HTTP status mapping (`response.ok` is a 2xx
status), the HTML-disguise sniff, then the streamed write. -/
def attemptStep (o : FetchOutcome) : AttemptStep :=
  match o with
  | .netError m => .failBeforeWrite m
  | .response r =>
    if ¬(200 ≤ r.status ∧ r.status < 300) then
      if r.status = 401 ∨ r.status = 403 then
        .failBeforeWrite (authStatusMsg r.status r.statusText)
      else if r.status = 404 then
        .failBeforeWrite (notFoundMsg r.status r.statusText)
      else
        .failBeforeWrite (downloadFailMsg r.status r.statusText)
    else
      let ct := r.contentType.getD ""
      if strIncludes ct "text/html" &&
          (match r.contentLength with
           | some n => decide (n > 1000)
           | none => false) then
        if strIncludes r.bodyText "redirect" ||
            strIncludes r.bodyText "login" ||
            strIncludes r.bodyText "401" ||
            strIncludes r.bodyText "403" ||
            strIncludes r.bodyText "Unauthorized" then
          .failBeforeWrite htmlAuthMsg
        else if strIncludes r.bodyText "<html" &&
            strIncludes r.bodyText "<title>" &&
            strIncludes r.bodyText "Home" then
          .failBeforeWrite homepageMsg
        else
          .failBeforeWrite (htmlGenericMsg r.status)
      else
        match r.stream with
        | .ok => .success
        | .readerError m => .failDuringStream m
        | .writeError m created => .writeStreamFault m created
        | .writeHang => .writeStreamHang

/-- `Failed to download after ${maxRetries} attempts: ${error.message}`. -/
def retryFailMsg (maxRetries : Nat) (m : String) : String :=
  "Failed to download after " ++ toString maxRetries ++ " attempts: " ++ m

/-- How a `downloadFileWithRetry` call ends: returning normally, throwing
a message the caller's `catch` receives, an uncaught fault escaping its
`try/catch` (unlistened write-stream `error`), or never settling at all
(pump hung on `drain`). -/
inductive RetryResult where
  | ok : RetryResult
  | thrown : String → RetryResult
  | fault : String → RetryResult
  | hangs : RetryResult
deriving Repr, DecidableEq

/-- What `downloadFileWithRetry` leaves behind: how the call ended, whether
the destination file exists at that point, how many attempts ran, and the
backoff delays (milliseconds) slept between attempts, in order. -/
structure RetryOutcome where
  result : RetryResult
  tempExists : Bool
  attemptsMade : Nat
  delays : List Nat

/-- The `for (let attempt = 1; attempt <= maxRetries; attempt++)` loop of
`downloadFileWithRetry`.  The fuel argument counts the iterations still
allowed (`maxRetries - attempt + 1`); when it reaches zero the loop ends
and the function returns normally, as the JavaScript `for` does.  A caught
failure that is not on the last attempt sleeps `Math.pow(2, attempt) *
1000` milliseconds before the next one; an escaping step ends the whole
call then and there (no `catch` runs, no further attempt). -/
def retryGo (step : Nat → AttemptStep) (maxRetries : Nat) :
    Nat → Nat → Bool → List Nat → RetryOutcome
  | attempt, 0, tempExists, delays =>
    ⟨.ok, tempExists, attempt - 1, delays⟩
  | attempt, fuel + 1, tempExists, delays =>
    match step attempt with
    | .success => ⟨.ok, true, attempt, delays⟩
    | .failBeforeWrite m =>
      if attempt = maxRetries then
        ⟨.thrown (retryFailMsg maxRetries m), tempExists, attempt, delays⟩
      else
        retryGo step maxRetries (attempt + 1) fuel tempExists
          (delays ++ [2 ^ attempt * 1000])
    | .failDuringStream m =>
      if attempt = maxRetries then
        ⟨.thrown (retryFailMsg maxRetries m), true, attempt, delays⟩
      else
        retryGo step maxRetries (attempt + 1) fuel true
          (delays ++ [2 ^ attempt * 1000])
    | .writeStreamFault m created =>
      ⟨.fault m, created || tempExists, attempt, delays⟩
    | .writeStreamHang =>
      ⟨.hangs, true, attempt, delays⟩

/-- `downloadFileWithRetry(url, destPath, maxRetries)` over a per-attempt
network behaviour; `tempExists0` is whether the destination path already
holds a file (a leftover of a crashed prior run). -/
def downloadFileWithRetry (fetches : Nat → FetchOutcome) (tempExists0 : Bool)
    (maxRetries : Nat) : RetryOutcome :=
  retryGo (fun n => attemptStep (fetches n)) maxRetries 1 maxRetries
    tempExists0 []

/-- How the extraction step behaves.  The source pipes
`fs.createReadStream(zipPath)` into `unzipper.Extract` and awaits a promise
that listens for `close` and `error` on the `unzipper.Extract` stream only:
  - `ok`: extraction completes (`close` fires);
  - `extractError`: the `unzipper.Extract` stream emits `error` (malformed
    archive, write failure in the target): the promise rejects and the
    extraction `catch` runs (best-effort temp cleanup, wrapped rethrow);
  - `readStreamFault`: `fs.createReadStream(zipPath)` emits `error`.
    `.pipe()` does not forward source errors and no listener is attached to
    the read stream, so Node raises an uncaught `error`-event exception —
    the handler's `try/catch` never sees it and the awaited promise never
    settles: the fault escapes the handler, no cleanup runs. -/
inductive ExtractBehavior where
  | ok : ExtractBehavior
  | extractError : String → ExtractBehavior
  | readStreamFault : String → ExtractBehavior
deriving Repr, DecidableEq

/-- Whether the extraction behaviour escapes the handler's `try/catch`. -/
def extractEscapes : ExtractBehavior → Bool
  | .readStreamFault _ => true
  | _ => false

/-- Environment of one `download-event-liveries` invocation: the stored
configuration, what the directory prompt would yield, whether a given
directory currently validates (`validateDirectory`), whether
`fs.mkdirSync` throws, the network behaviour per attempt, how the
extraction behaves, and the outcomes of the two `fs.unlinkSync(zipPath)`
calls — the one after a successful extraction and the best-effort one
inside the extraction `catch`.  The session-cookie collection step only
shapes the request headers and catches its own errors, so it is absorbed
into the per-attempt fetch outcomes. -/
structure PipelineEnv where
  configFile : ConfigFile
  folderSelect : FolderResult
  validateDir : String → Bool
  mkdirError : Option String
  fetches : Nat → FetchOutcome
  extract : ExtractBehavior
  unlinkAfterExtractOk : Bool
  unlinkAfterExtractErrMsg : String
  cleanupUnlinkOk : Bool

/-- The result object the handler returns to the renderer. -/
structure HandlerResult where
  success : Bool
  message : String
  targetDirectory : Option String
deriving Repr, DecidableEq

/-- Everything observable when the handler returns: the result object, the
config file (the handler never writes it), whether the temporary archive
`liveries_event_<eventId>.zip` exists, whether the directory prompt was
shown, whether `fs.mkdirSync` was reached, and how many fetch attempts ran
with which backoff delays. -/
structure HandlerOutcome where
  result : HandlerResult
  configAfter : ConfigFile
  tempExists : Bool
  promptShown : Bool
  mkdirCalled : Bool
  fetchAttempts : Nat
  delays : List Nat

/-- JavaScript falsiness of a string-valued IPC argument: absent
(`undefined`/`null`) or the empty string. -/
def jsFalsy : Option String → Bool
  | none => true
  | some s => s = ""

/-- `Missing required parameters: eventId and baseUrl`. -/
def missingParamsMsg : String := "Missing required parameters: eventId and baseUrl"

/-- `No directory selected for liveries extraction`. -/
def noDirectoryMsg : String := "No directory selected for liveries extraction"

/-- `Failed to extract ZIP file: ${extractionError.message}`. -/
def extractFailMsg (m : String) : String :=
  "Failed to extract ZIP file: " ++ m

/-- `Liveries downloaded and extracted to ${extractDir}`. -/
def successMsg (dir : String) : String :=
  "Liveries downloaded and extracted to " ++ dir

/-- The target-directory resolution step of the handler: use the configured
livery directory when present and still valid (`validateDirectory` is
re-run); otherwise call `selectDocumentsFolder()` and fail with
`No directory selected for liveries extraction` on cancellation (a throw
inside the prompt also propagates).  Returns whether the prompt was shown
together with the directory or the thrown message. -/
def resolveTargetDirectory (env : PipelineEnv) : Bool × Except String String :=
  let prompt : Bool × Except String String :=
    match env.folderSelect with
    | .canceled => (true, .error noDirectoryMsg)
    | .selected p => (true, .ok p)
    | .threwMsg m => (true, .error m)
  match getConfiguredLiveryDirectory env.configFile with
  | some d => if env.validateDir d then (false, .ok d) else prompt
  | none => prompt

/-- A failure result object `{ success: false, message }` as built by the
handler's outer `catch`. -/
def failResult (m : String) : HandlerResult :=
  ⟨false, m, none⟩

/-- How a `download-event-liveries` invocation ends.  `returns` is the
normal case: the handler's own `try/catch` produced a result object for the
renderer.  `fault` is an uncaught `error`-event exception (unlistened write
stream in the pump, or unlistened read stream during extraction) that
escapes the handler entirely; `hangs` is an invocation that never completes
(pump parked on `drain`).  Both non-returning cases carry whether the
temporary archive exists at that moment. -/
inductive HandlerTermination where
  | returns : HandlerOutcome → HandlerTermination
  | fault : String → Bool → HandlerTermination
  | hangs : Bool → HandlerTermination

/-- The `download-event-liveries` IPC handler: validate the inputs, resolve
and create the target directory, download with retries to the temporary
archive path, extract, clean up, and catch every thrown error into
`{ success: false, message: error.message }` — except the two unlistened
stream `error` events, which escape, and the `drain` hang, which never
completes. -/
def downloadEventLiveries (env : PipelineEnv) (eventId baseUrl : Option String)
    (tempExists0 : Bool) : HandlerTermination :=
  if jsFalsy eventId || jsFalsy baseUrl then
    .returns
      { result := failResult missingParamsMsg
        configAfter := env.configFile
        tempExists := tempExists0
        promptShown := false
        mkdirCalled := false
        fetchAttempts := 0
        delays := [] }
  else
    let (prompted, dirRes) := resolveTargetDirectory env
    match dirRes with
    | .error m =>
      .returns
        { result := failResult m
          configAfter := env.configFile
          tempExists := tempExists0
          promptShown := prompted
          mkdirCalled := false
          fetchAttempts := 0
          delays := [] }
    | .ok dir =>
      match env.mkdirError with
      | some m =>
        .returns
          { result := failResult m
            configAfter := env.configFile
            tempExists := tempExists0
            promptShown := prompted
            mkdirCalled := true
            fetchAttempts := 0
            delays := [] }
      | none =>
        let dl := downloadFileWithRetry env.fetches tempExists0 3
        match dl.result with
        | .fault m => .fault m dl.tempExists
        | .hangs => .hangs dl.tempExists
        | .thrown m =>
          .returns
            { result := failResult m
              configAfter := env.configFile
              tempExists := dl.tempExists
              promptShown := prompted
              mkdirCalled := true
              fetchAttempts := dl.attemptsMade
              delays := dl.delays }
        | .ok =>
          match env.extract with
          | .readStreamFault m => .fault m true
          | .extractError m =>
            .returns
              { result := failResult (extractFailMsg m)
                configAfter := env.configFile
                tempExists := !env.cleanupUnlinkOk
                promptShown := prompted
                mkdirCalled := true
                fetchAttempts := dl.attemptsMade
                delays := dl.delays }
          | .ok =>
            if env.unlinkAfterExtractOk then
              .returns
                { result := ⟨true, successMsg dir, some dir⟩
                  configAfter := env.configFile
                  tempExists := false
                  promptShown := prompted
                  mkdirCalled := true
                  fetchAttempts := dl.attemptsMade
                  delays := dl.delays }
            else
              .returns
                { result := failResult (extractFailMsg env.unlinkAfterExtractErrMsg)
                  configAfter := env.configFile
                  tempExists := !env.cleanupUnlinkOk
                  promptShown := prompted
                  mkdirCalled := true
                  fetchAttempts := dl.attemptsMade
                  delays := dl.delays }


/-- Shape of the result object the renderer receives: on success the
message and the target directory are filled in; on failure there is no
target directory (the failure cause stands in `message`). -/
def wellFormedResult (r : HandlerResult) : Prop :=
  (r.success = true ∧
    ∃ d, r.targetDirectory = some d ∧ r.message = successMsg d) ∨
  (r.success = false ∧ r.targetDirectory = none)

/-- A parsed configuration document holding the key `serverUrl` but not the
key `url`. -/
def serverUrlOnlyRecord : ConfigRecord :=
  { ConfigRecord.empty with serverUrl := some "https://example.org" }

/-- The store after `saveConfig({liveryDirectory: "/home/user/Documents/ACC/Customs",
minimizeToTray: true})` followed by `saveUrl("https://example.org")`. -/
def afterSaveUrl : ConfigFile :=
  saveUrl "https://example.org"
    (saveConfig
      { ConfigRecord.empty with
          liveryDirectory := some "/home/user/Documents/ACC/Customs"
          minimizeToTray := some true }
      ConfigFile.missing)

/-- The store after the `select-documents-folder` IPC handler persisted a
freshly selected directory into an empty store. -/
def afterSelectFolder : ConfigFile :=
  (selectDocumentsFolderHandler
    (FolderResult.selected "/home/user/Documents/ACC/Customs")
    ConfigFile.missing).1

/-- A neutral concrete environment used to instantiate quantified theorems
at a concrete input. -/
def sampleEnv : PipelineEnv where
  configFile := ConfigFile.missing
  folderSelect := FolderResult.canceled
  validateDir := fun _ => true
  mkdirError := none
  fetches := fun _ => FetchOutcome.netError "fetch failed"
  extract := ExtractBehavior.ok
  unlinkAfterExtractOk := true
  unlinkAfterExtractErrMsg := ""
  cleanupUnlinkOk := true

/-- A concrete disguised-HTML response: 2xx, `text/html`, declared length
5000, body holding the word `login`. -/
def loginPageResponse : FetchResponse where
  status := 200
  statusText := "OK"
  contentType := some "text/html; charset=utf-8"
  contentLength := some 5000
  bodyText := "<html><head><title>Sign in</title></head><body>Please login to continue.</body></html>"
  stream := StreamBehavior.ok

/-- A response with HTTP status `500 Internal Server Error`. -/
def serverErrorResponse : FetchResponse where
  status := 500
  statusText := "Internal Server Error"
  contentType := none
  contentLength := none
  bodyText := ""
  stream := StreamBehavior.ok

/-- A 2xx archive response whose reader rejects mid-transfer
(`reader.read()` throws into the attempt's `catch`): the write stream has
already created the destination file. -/
def streamFailResponse : FetchResponse where
  status := 200
  statusText := "OK"
  contentType := some "application/zip"
  contentLength := some 1024
  bodyText := ""
  stream := StreamBehavior.readerError "read ECONNRESET"

/-- Environment whose first attempt dies mid-stream (creating the temp
file) and whose remaining attempts answer HTTP 500: the retry budget is
exhausted with a partial file on disk. -/
def leftoverTempEnv : PipelineEnv where
  configFile := ConfigFile.record
    { ConfigRecord.empty with
        liveryDirectory := some "/home/user/Documents/ACC/Customs" }
  folderSelect := FolderResult.canceled
  validateDir := fun _ => true
  mkdirError := none
  fetches := fun n =>
    if n = 1 then FetchOutcome.response streamFailResponse
    else FetchOutcome.response serverErrorResponse
  extract := ExtractBehavior.ok
  unlinkAfterExtractOk := true
  unlinkAfterExtractErrMsg := ""
  cleanupUnlinkOk := true

/-- A well-formed 2xx archive response that streams to the file without
error. -/
def okZipResponse : FetchResponse where
  status := 200
  statusText := "OK"
  contentType := some "application/zip"
  contentLength := some 4096
  bodyText := ""
  stream := StreamBehavior.ok

/-- Environment where download and extraction both succeed and the final
`fs.unlinkSync(zipPath)` throws (as does the best-effort retry inside the
catch). -/
def unlinkFailEnv : PipelineEnv where
  configFile := ConfigFile.record
    { ConfigRecord.empty with
        liveryDirectory := some "/home/user/Documents/ACC/Customs" }
  folderSelect := FolderResult.canceled
  validateDir := fun _ => true
  mkdirError := none
  fetches := fun _ => FetchOutcome.response okZipResponse
  extract := ExtractBehavior.ok
  unlinkAfterExtractOk := false
  unlinkAfterExtractErrMsg := "EPERM: operation not permitted, unlink"
  cleanupUnlinkOk := false

/-- The result object the handler produces at `unlinkFailEnv`: download on
attempt 1, extraction fine, final unlink fails, cleanup unlink fails too. -/
def unlinkFailOutcome : HandlerOutcome where
  result := failResult (extractFailMsg "EPERM: operation not permitted, unlink")
  configAfter := unlinkFailEnv.configFile
  tempExists := true
  promptShown := false
  mkdirCalled := true
  fetchAttempts := 1
  delays := []

/-- A well-formed 2xx archive response whose write stream emits `error`
(disk full) after the destination file was created — the unlistened
`error` event escapes every `catch`. -/
def diskFullResponse : FetchResponse where
  status := 200
  statusText := "OK"
  contentType := some "application/zip"
  contentLength := some 4096
  bodyText := ""
  stream := StreamBehavior.writeError "ENOSPC: no space left on device, write" true

/-- Environment with a configured valid directory where the first attempt's
write stream faults: the handler neither returns a result object nor throws
catchably — the fault escapes its boundary. -/
def writeFaultEnv : PipelineEnv where
  configFile := ConfigFile.record
    { ConfigRecord.empty with
        liveryDirectory := some "/home/user/Documents/ACC/Customs" }
  folderSelect := FolderResult.canceled
  validateDir := fun _ => true
  mkdirError := none
  fetches := fun _ => FetchOutcome.response diskFullResponse
  extract := ExtractBehavior.ok
  unlinkAfterExtractOk := true
  unlinkAfterExtractErrMsg := ""
  cleanupUnlinkOk := true

/-- The handler on falsy inputs: the validation throw is caught and
nothing else runs. -/
theorem handler_when_missingParams (env : PipelineEnv)
    (eventId baseUrl : Option String) (t0 : Bool)
    (h : (jsFalsy eventId || jsFalsy baseUrl) = true) :
    downloadEventLiveries env eventId baseUrl t0 =
      HandlerTermination.returns
      { result := failResult missingParamsMsg
        configAfter := env.configFile
        tempExists := t0
        promptShown := false
        mkdirCalled := false
        fetchAttempts := 0
        delays := [] } := by
  unfold downloadEventLiveries
  rw [if_pos h]

/-- The handler when directory resolution throws (prompt cancelled or the
prompt itself threw). -/
theorem handler_when_dirError (env : PipelineEnv)
    (eventId baseUrl : Option String) (t0 : Bool)
    (h0 : (jsFalsy eventId || jsFalsy baseUrl) = false)
    (p : Bool) (m : String)
    (h1 : resolveTargetDirectory env = (p, Except.error m)) :
    downloadEventLiveries env eventId baseUrl t0 =
      HandlerTermination.returns
      { result := failResult m
        configAfter := env.configFile
        tempExists := t0
        promptShown := p
        mkdirCalled := false
        fetchAttempts := 0
        delays := [] } := by
  have hnot : ¬((jsFalsy eventId || jsFalsy baseUrl) = true) := by simp [h0]
  unfold downloadEventLiveries
  rw [if_neg hnot, h1]

/-- The handler when `fs.mkdirSync` throws. -/
theorem handler_when_mkdirError (env : PipelineEnv)
    (eventId baseUrl : Option String) (t0 : Bool)
    (h0 : (jsFalsy eventId || jsFalsy baseUrl) = false)
    (p : Bool) (dir m : String)
    (h1 : resolveTargetDirectory env = (p, Except.ok dir))
    (h2 : env.mkdirError = some m) :
    downloadEventLiveries env eventId baseUrl t0 =
      HandlerTermination.returns
      { result := failResult m
        configAfter := env.configFile
        tempExists := t0
        promptShown := p
        mkdirCalled := true
        fetchAttempts := 0
        delays := [] } := by
  have hnot : ¬((jsFalsy eventId || jsFalsy baseUrl) = true) := by simp [h0]
  unfold downloadEventLiveries
  rw [if_neg hnot, h1]
  dsimp only
  rw [h2]

/-- The handler when the retry loop exhausts its budget and throws. -/
theorem handler_when_downloadError (env : PipelineEnv)
    (eventId baseUrl : Option String) (t0 : Bool)
    (h0 : (jsFalsy eventId || jsFalsy baseUrl) = false)
    (p : Bool) (dir m : String)
    (h1 : resolveTargetDirectory env = (p, Except.ok dir))
    (h2 : env.mkdirError = none)
    (h3 : (downloadFileWithRetry env.fetches t0 3).result = RetryResult.thrown m) :
    downloadEventLiveries env eventId baseUrl t0 =
      HandlerTermination.returns
      { result := failResult m
        configAfter := env.configFile
        tempExists := (downloadFileWithRetry env.fetches t0 3).tempExists
        promptShown := p
        mkdirCalled := true
        fetchAttempts := (downloadFileWithRetry env.fetches t0 3).attemptsMade
        delays := (downloadFileWithRetry env.fetches t0 3).delays } := by
  have hnot : ¬((jsFalsy eventId || jsFalsy baseUrl) = true) := by simp [h0]
  unfold downloadEventLiveries
  rw [if_neg hnot, h1]
  dsimp only
  rw [h2]
  dsimp only
  rw [h3]

/-- The handler when the download succeeds and `unzipper` fails: the
best-effort cleanup unlink decides whether the temp file survives. -/
theorem handler_when_extractError (env : PipelineEnv)
    (eventId baseUrl : Option String) (t0 : Bool)
    (h0 : (jsFalsy eventId || jsFalsy baseUrl) = false)
    (p : Bool) (dir m : String)
    (h1 : resolveTargetDirectory env = (p, Except.ok dir))
    (h2 : env.mkdirError = none)
    (h3 : (downloadFileWithRetry env.fetches t0 3).result = RetryResult.ok)
    (h4 : env.extract = ExtractBehavior.extractError m) :
    downloadEventLiveries env eventId baseUrl t0 =
      HandlerTermination.returns
      { result := failResult (extractFailMsg m)
        configAfter := env.configFile
        tempExists := !env.cleanupUnlinkOk
        promptShown := p
        mkdirCalled := true
        fetchAttempts := (downloadFileWithRetry env.fetches t0 3).attemptsMade
        delays := (downloadFileWithRetry env.fetches t0 3).delays } := by
  have hnot : ¬((jsFalsy eventId || jsFalsy baseUrl) = true) := by simp [h0]
  unfold downloadEventLiveries
  rw [if_neg hnot, h1]
  dsimp only
  rw [h2]
  dsimp only
  rw [h3]
  dsimp only
  rw [h4]

/-- The handler when download, extraction and the final unlink all
succeed. -/
theorem handler_when_success (env : PipelineEnv)
    (eventId baseUrl : Option String) (t0 : Bool)
    (h0 : (jsFalsy eventId || jsFalsy baseUrl) = false)
    (p : Bool) (dir : String)
    (h1 : resolveTargetDirectory env = (p, Except.ok dir))
    (h2 : env.mkdirError = none)
    (h3 : (downloadFileWithRetry env.fetches t0 3).result = RetryResult.ok)
    (h4 : env.extract = ExtractBehavior.ok)
    (h5 : env.unlinkAfterExtractOk = true) :
    downloadEventLiveries env eventId baseUrl t0 =
      HandlerTermination.returns
      { result := ⟨true, successMsg dir, some dir⟩
        configAfter := env.configFile
        tempExists := false
        promptShown := p
        mkdirCalled := true
        fetchAttempts := (downloadFileWithRetry env.fetches t0 3).attemptsMade
        delays := (downloadFileWithRetry env.fetches t0 3).delays } := by
  have hnot : ¬((jsFalsy eventId || jsFalsy baseUrl) = true) := by simp [h0]
  unfold downloadEventLiveries
  rw [if_neg hnot, h1]
  dsimp only
  rw [h2]
  dsimp only
  rw [h3]
  dsimp only
  rw [h4]
  dsimp only
  rw [h5]
  rfl

/-- The handler when download and extraction succeed and the final unlink
throws: the error is caught by the extraction catch and rethrown as an
extraction failure. -/
theorem handler_when_unlinkFail (env : PipelineEnv)
    (eventId baseUrl : Option String) (t0 : Bool)
    (h0 : (jsFalsy eventId || jsFalsy baseUrl) = false)
    (p : Bool) (dir : String)
    (h1 : resolveTargetDirectory env = (p, Except.ok dir))
    (h2 : env.mkdirError = none)
    (h3 : (downloadFileWithRetry env.fetches t0 3).result = RetryResult.ok)
    (h4 : env.extract = ExtractBehavior.ok)
    (h5 : env.unlinkAfterExtractOk = false) :
    downloadEventLiveries env eventId baseUrl t0 =
      HandlerTermination.returns
      { result := failResult (extractFailMsg env.unlinkAfterExtractErrMsg)
        configAfter := env.configFile
        tempExists := !env.cleanupUnlinkOk
        promptShown := p
        mkdirCalled := true
        fetchAttempts := (downloadFileWithRetry env.fetches t0 3).attemptsMade
        delays := (downloadFileWithRetry env.fetches t0 3).delays } := by
  have hnot : ¬((jsFalsy eventId || jsFalsy baseUrl) = true) := by simp [h0]
  unfold downloadEventLiveries
  rw [if_neg hnot, h1]
  dsimp only
  rw [h2]
  dsimp only
  rw [h3]
  dsimp only
  rw [h4]
  dsimp only
  rw [h5]
  rfl

/-- C6: at startup the configuration window is created if and only if the
server URL read from the store equals the built-in default and no
configuration file exists on disk; in every other case the main window is
created directly. -/
theorem startup_config_only_iff (f : ConfigFile) :
    initializeAppStartup f = StartupWindow.configWindow ↔
      (readSavedUrl f = defaultUrl ∧ configFileExists f = false) := by
  unfold initializeAppStartup
  split <;> simp_all

/-- C6 witness: on a first launch (no configuration file) the configuration
window is the one created. -/
theorem startup_config_only_iff_witness :
    initializeAppStartup ConfigFile.missing = StartupWindow.configWindow :=
  (startup_config_only_iff ConfigFile.missing).mpr ⟨rfl, rfl⟩

/-- C9 counterexample: a configuration document whose `serverUrl` field is
present and equal to `https://example.org` — `readSavedUrl` still returns
the built-in default, because the source reads the key `url`, not
`serverUrl`. -/
theorem readSavedUrl_ignores_serverUrl :
    readSavedUrl (ConfigFile.record serverUrlOnlyRecord) = defaultUrl ∧
      defaultUrl ≠ "https://example.org" := by
  exact ⟨rfl, by decide⟩

/-- C9 amended: `readSavedUrl` returns the record's `url` field when that
field is present and non-empty, and the built-in default in every other
state of the store — `url` absent or empty, file missing, or file
unreadable; it never raises (it is a total function into `String`). -/
theorem readSavedUrl_amended (f : ConfigFile) :
    (∃ r u, f = ConfigFile.record r ∧ r.url = some u ∧ u ≠ "" ∧
        readSavedUrl f = u) ∨
      readSavedUrl f = defaultUrl := by
  match f with
  | .missing => exact Or.inr rfl
  | .corrupt => exact Or.inr rfl
  | .record r =>
    match hu : r.url with
    | none => exact Or.inr (by simp [readSavedUrl, truthyStr, hu])
    | some u =>
      by_cases he : u = ""
      · exact Or.inr (by simp [readSavedUrl, truthyStr, hu, he])
      · exact Or.inl ⟨r, u, rfl, hu, he, by simp [readSavedUrl, truthyStr, hu, he]⟩

/-- C3 counterexample: after a full `saveConfig` followed by `saveUrl`, the
stored record holds only the `url` key — `liveryDirectory` and
`minimizeToTray` are gone, because `saveUrl` overwrites the file with the
fresh object `{ url }` instead of doing a read-modify-write. -/
theorem saveUrl_drops_fields :
    (readSavedConfig afterSaveUrl).url = some "https://example.org" ∧
      (readSavedConfig afterSaveUrl).liveryDirectory = none ∧
      (readSavedConfig afterSaveUrl).minimizeToTray = none ∧
      ¬((readSavedConfig afterSaveUrl).liveryDirectory =
          some "/home/user/Documents/ACC/Customs" ∧
        (readSavedConfig afterSaveUrl).minimizeToTray = some true) := by
  refine ⟨rfl, rfl, rfl, ?_⟩
  intro h
  cases h.1

/-- C3 amended: `saveMinimizeToTrayPreference` is a read-modify-write that
preserves every other field of the prior record while setting
`minimizeToTray`; `saveUrl`, by contrast, replaces the whole record with
`{ url }`, dropping every other field. -/
theorem partial_update_amended (f : ConfigFile) (b : Bool) (u : String) :
    (readSavedConfig (saveMinimizeToTrayPreference b f)).url =
        (readSavedConfig f).url ∧
      (readSavedConfig (saveMinimizeToTrayPreference b f)).serverUrl =
        (readSavedConfig f).serverUrl ∧
      (readSavedConfig (saveMinimizeToTrayPreference b f)).liveryDirectory =
        (readSavedConfig f).liveryDirectory ∧
      (readSavedConfig (saveMinimizeToTrayPreference b f)).documentsFolder =
        (readSavedConfig f).documentsFolder ∧
      (readSavedConfig (saveMinimizeToTrayPreference b f)).minimizeToTray =
        some b ∧
      readSavedConfig (saveUrl u f) =
        { ConfigRecord.empty with url := some u } := by
  refine ⟨rfl, rfl, rfl, rfl, rfl, rfl⟩

/-- C8 counterexample: after the `select-documents-folder` handler saves a
selected directory, the stored record carries it under the legacy
`documentsFolder` key and the `liveryDirectory` key is absent — the write
path uses `config.documentsFolder = result.path`. -/
theorem select_folder_writes_legacy_key :
    (readSavedConfig afterSelectFolder).liveryDirectory = none ∧
      (readSavedConfig afterSelectFolder).documentsFolder =
        some "/home/user/Documents/ACC/Customs" := by
  exact ⟨rfl, rfl⟩

/-- C8 amended: the `select-documents-folder` handler persists the picked
directory under the legacy `documentsFolder` key, leaving `liveryDirectory`
as it was; only the helper `saveConfiguredLiveryDirectory` — exported by
`configHelpers.js` but not wired into `main.js` — writes the canonical
`liveryDirectory` key.  Reads accept both keys
(`getConfiguredLiveryDirectory`). -/
theorem select_folder_amended (f : ConfigFile) (p : String) :
    (readSavedConfig (selectDocumentsFolderHandler (.selected p) f).1).documentsFolder =
        some p ∧
      (readSavedConfig (selectDocumentsFolderHandler (.selected p) f).1).liveryDirectory =
        (readSavedConfig f).liveryDirectory ∧
      (readSavedConfig (saveConfiguredLiveryDirectory p f)).liveryDirectory =
        some p ∧
      ((readSavedConfig f).liveryDirectory = none → p ≠ "" →
        getConfiguredLiveryDirectory
          (selectDocumentsFolderHandler (.selected p) f).1 = some p) := by
  refine ⟨rfl, rfl, rfl, ?_⟩
  intro h hp
  have hrec : readSavedConfig (selectDocumentsFolderHandler (.selected p) f).1 =
      { readSavedConfig f with documentsFolder := some p } := rfl
  unfold getConfiguredLiveryDirectory
  rw [hrec]
  simp [truthyStr, h, hp]


/-- The handler when an attempt's write stream faults: the uncaught
`error`-event exception ends the invocation without any `catch` running. -/
theorem handler_when_retryFault (env : PipelineEnv)
    (eventId baseUrl : Option String) (t0 : Bool)
    (h0 : (jsFalsy eventId || jsFalsy baseUrl) = false)
    (p : Bool) (dir m : String)
    (h1 : resolveTargetDirectory env = (p, Except.ok dir))
    (h2 : env.mkdirError = none)
    (h3 : (downloadFileWithRetry env.fetches t0 3).result = RetryResult.fault m) :
    downloadEventLiveries env eventId baseUrl t0 =
      HandlerTermination.fault m
        (downloadFileWithRetry env.fetches t0 3).tempExists := by
  have hnot : ¬((jsFalsy eventId || jsFalsy baseUrl) = true) := by simp [h0]
  unfold downloadEventLiveries
  rw [if_neg hnot, h1]
  dsimp only
  rw [h2]
  dsimp only
  rw [h3]

/-- The handler when an attempt's pump hangs on `drain`: the invocation
never completes. -/
theorem handler_when_retryHangs (env : PipelineEnv)
    (eventId baseUrl : Option String) (t0 : Bool)
    (h0 : (jsFalsy eventId || jsFalsy baseUrl) = false)
    (p : Bool) (dir : String)
    (h1 : resolveTargetDirectory env = (p, Except.ok dir))
    (h2 : env.mkdirError = none)
    (h3 : (downloadFileWithRetry env.fetches t0 3).result = RetryResult.hangs) :
    downloadEventLiveries env eventId baseUrl t0 =
      HandlerTermination.hangs
        (downloadFileWithRetry env.fetches t0 3).tempExists := by
  have hnot : ¬((jsFalsy eventId || jsFalsy baseUrl) = true) := by simp [h0]
  unfold downloadEventLiveries
  rw [if_neg hnot, h1]
  dsimp only
  rw [h2]
  dsimp only
  rw [h3]

/-- The handler when the download succeeded and the extraction's read
stream faults: the fault escapes with the downloaded archive still on
disk (no cleanup runs). -/
theorem handler_when_readStreamFault (env : PipelineEnv)
    (eventId baseUrl : Option String) (t0 : Bool)
    (h0 : (jsFalsy eventId || jsFalsy baseUrl) = false)
    (p : Bool) (dir m : String)
    (h1 : resolveTargetDirectory env = (p, Except.ok dir))
    (h2 : env.mkdirError = none)
    (h3 : (downloadFileWithRetry env.fetches t0 3).result = RetryResult.ok)
    (h4 : env.extract = ExtractBehavior.readStreamFault m) :
    downloadEventLiveries env eventId baseUrl t0 =
      HandlerTermination.fault m true := by
  have hnot : ¬((jsFalsy eventId || jsFalsy baseUrl) = true) := by simp [h0]
  unfold downloadEventLiveries
  rw [if_neg hnot, h1]
  dsimp only
  rw [h2]
  dsimp only
  rw [h3]
  dsimp only
  rw [h4]

/-- A retry loop whose every attempt is free of escaping steps ends in a
normal return or a catchable throw — never in a fault or a hang. -/
theorem retryGo_result_no_escape (step : Nat → AttemptStep) (maxR : Nat)
    (h : ∀ n, stepEscapes (step n) = false) :
    ∀ fuel attempt t d,
      (retryGo step maxR attempt fuel t d).result = RetryResult.ok ∨
        ∃ m, (retryGo step maxR attempt fuel t d).result = RetryResult.thrown m := by
  intro fuel
  induction fuel with
  | zero => intro attempt t d; exact Or.inl rfl
  | succ k ih =>
    intro attempt t d
    cases hstep : step attempt with
    | success =>
      unfold retryGo
      rw [hstep]
      exact Or.inl rfl
    | failBeforeWrite m =>
      unfold retryGo
      rw [hstep]
      dsimp only
      split
      · exact Or.inr ⟨retryFailMsg maxR m, rfl⟩
      · exact ih (attempt + 1) t (d ++ [2 ^ attempt * 1000])
    | failDuringStream m =>
      unfold retryGo
      rw [hstep]
      dsimp only
      split
      · exact Or.inr ⟨retryFailMsg maxR m, rfl⟩
      · exact ih (attempt + 1) true (d ++ [2 ^ attempt * 1000])
    | writeStreamFault m c =>
      have hesc := h attempt
      rw [hstep] at hesc
      simp [stepEscapes] at hesc
    | writeStreamHang =>
      have hesc := h attempt
      rw [hstep] at hesc
      simp [stepEscapes] at hesc

/-- `downloadFileWithRetry` under escape-free attempts returns or throws. -/
theorem downloadFileWithRetry_no_escape (fetches : Nat → FetchOutcome)
    (t0 : Bool) (h : ∀ n, stepEscapes (attemptStep (fetches n)) = false) :
    (downloadFileWithRetry fetches t0 3).result = RetryResult.ok ∨
      ∃ m, (downloadFileWithRetry fetches t0 3).result = RetryResult.thrown m :=
  retryGo_result_no_escape (fun n => attemptStep (fetches n)) 3 h 3 1 t0 []

/-- An attempt that throws before opening the write stream leaves the
destination file exactly as it was, through any number of retries. -/
theorem retryGo_tempExists_of_failBeforeWrite (step : Nat → AttemptStep)
    (maxR : Nat) (h : ∀ n, ∃ m, step n = AttemptStep.failBeforeWrite m) :
    ∀ fuel attempt t d, (retryGo step maxR attempt fuel t d).tempExists = t := by
  intro fuel
  induction fuel with
  | zero => intro attempt t d; rfl
  | succ k ih =>
    intro attempt t d
    obtain ⟨m, hm⟩ := h attempt
    unfold retryGo
    rw [hm]
    dsimp only
    split
    · rfl
    · exact ih (attempt + 1) t (d ++ [2 ^ attempt * 1000])

/-- C10: with a falsy `eventId` or `baseUrl` the handler returns
`{success: false, message: 'Missing required parameters: eventId and baseUrl'}`
with no prompt shown, no directory created, no temporary file touched, no
fetch attempted, and the configuration store unchanged. -/
theorem missing_params_early_return (env : PipelineEnv)
    (eventId baseUrl : Option String) (t0 : Bool)
    (h : jsFalsy eventId = true ∨ jsFalsy baseUrl = true) :
    downloadEventLiveries env eventId baseUrl t0 =
      HandlerTermination.returns
        { result := failResult missingParamsMsg
          configAfter := env.configFile
          tempExists := t0
          promptShown := false
          mkdirCalled := false
          fetchAttempts := 0
          delays := [] } := by
  apply handler_when_missingParams
  rcases h with h | h <;> simp [h]

/-- C10 witness: calling the handler without an `eventId` yields the
missing-parameters failure and leaves every piece of state untouched. -/
theorem missing_params_early_return_witness :
    downloadEventLiveries sampleEnv none (some "https://example.org") false =
      HandlerTermination.returns
        { result := failResult missingParamsMsg
          configAfter := ConfigFile.missing
          tempExists := false
          promptShown := false
          mkdirCalled := false
          fetchAttempts := 0
          delays := [] } :=
  missing_params_early_return sampleEnv none (some "https://example.org") false
    (Or.inl rfl)

/-- C2 counterexample: a 2xx archive response whose write stream emits
`error` (disk full) makes the invocation end in an uncaught fault — the
handler does not return any result object, well-formed or otherwise,
refuting the claim that it always does for every filesystem behaviour. -/
theorem handler_escapes_on_write_stream_fault :
    downloadEventLiveries writeFaultEnv (some "42") (some "https://example.org")
        false =
      HandlerTermination.fault "ENOSPC: no space left on device, write" true ∧
      ¬∃ o, downloadEventLiveries writeFaultEnv (some "42")
          (some "https://example.org") false = HandlerTermination.returns o := by
  refine ⟨rfl, ?_⟩
  rintro ⟨o, ho⟩
  rw [show downloadEventLiveries writeFaultEnv (some "42")
      (some "https://example.org") false =
      HandlerTermination.fault "ENOSPC: no space left on device, write" true
    from rfl] at ho
  cases ho

/-- C2 amended: whenever the handler does return, the result object is
well-formed (`{success: true, message, targetDirectory}` or
`{success: false, message}`); and it does return — with all internal throws
absorbed by its `try/catch` — for every behaviour in which no unlistened
stream `error` fires: no write-stream fault or `drain` hang during the
pump, and no read-stream fault during extraction.  In the remaining
behaviours the invocation escapes as an uncaught `error`-event exception or
never completes, and no result object reaches the renderer. -/
theorem handler_result_amended (env : PipelineEnv)
    (eventId baseUrl : Option String) (t0 : Bool) :
    (∀ o, downloadEventLiveries env eventId baseUrl t0 =
        HandlerTermination.returns o → wellFormedResult o.result) ∧
    ((∀ n, stepEscapes (attemptStep (env.fetches n)) = false) →
      extractEscapes env.extract = false →
      ∃ o, downloadEventLiveries env eventId baseUrl t0 =
        HandlerTermination.returns o) := by
  refine ⟨?_, ?_⟩
  · by_cases hfal : (jsFalsy eventId || jsFalsy baseUrl) = true
    · rw [handler_when_missingParams env eventId baseUrl t0 hfal]
      intro o ho
      injection ho with h
      subst h
      exact Or.inr ⟨rfl, rfl⟩
    · have h0 : (jsFalsy eventId || jsFalsy baseUrl) = false := by
        simpa using hfal
      rcases hdr : resolveTargetDirectory env with ⟨p, dirRes⟩
      rcases dirRes with m | dir
      · rw [handler_when_dirError env eventId baseUrl t0 h0 p m hdr]
        intro o ho
        injection ho with h
        subst h
        exact Or.inr ⟨rfl, rfl⟩
      · cases hmk : env.mkdirError with
        | some m =>
          rw [handler_when_mkdirError env eventId baseUrl t0 h0 p dir m hdr hmk]
          intro o ho
          injection ho with h
          subst h
          exact Or.inr ⟨rfl, rfl⟩
        | none =>
          cases hdl : (downloadFileWithRetry env.fetches t0 3).result with
          | thrown m =>
            rw [handler_when_downloadError env eventId baseUrl t0 h0 p dir m hdr
              hmk hdl]
            intro o ho
            injection ho with h
            subst h
            exact Or.inr ⟨rfl, rfl⟩
          | fault m =>
            rw [handler_when_retryFault env eventId baseUrl t0 h0 p dir m hdr
              hmk hdl]
            intro o ho
            cases ho
          | hangs =>
            rw [handler_when_retryHangs env eventId baseUrl t0 h0 p dir hdr
              hmk hdl]
            intro o ho
            cases ho
          | ok =>
            cases hex : env.extract with
            | readStreamFault m =>
              rw [handler_when_readStreamFault env eventId baseUrl t0 h0 p dir m
                hdr hmk hdl hex]
              intro o ho
              cases ho
            | extractError m =>
              rw [handler_when_extractError env eventId baseUrl t0 h0 p dir m hdr
                hmk hdl hex]
              intro o ho
              injection ho with h
              subst h
              exact Or.inr ⟨rfl, rfl⟩
            | ok =>
              cases hu : env.unlinkAfterExtractOk with
              | true =>
                rw [handler_when_success env eventId baseUrl t0 h0 p dir hdr hmk
                  hdl hex hu]
                intro o ho
                injection ho with h
                subst h
                exact Or.inl ⟨rfl, dir, rfl, rfl⟩
              | false =>
                rw [handler_when_unlinkFail env eventId baseUrl t0 h0 p dir hdr
                  hmk hdl hex hu]
                intro o ho
                injection ho with h
                subst h
                exact Or.inr ⟨rfl, rfl⟩
  · intro hs hx
    by_cases hfal : (jsFalsy eventId || jsFalsy baseUrl) = true
    · exact ⟨_, handler_when_missingParams env eventId baseUrl t0 hfal⟩
    · have h0 : (jsFalsy eventId || jsFalsy baseUrl) = false := by
        simpa using hfal
      rcases hdr : resolveTargetDirectory env with ⟨p, dirRes⟩
      rcases dirRes with m | dir
      · exact ⟨_, handler_when_dirError env eventId baseUrl t0 h0 p m hdr⟩
      · cases hmk : env.mkdirError with
        | some m =>
          exact ⟨_, handler_when_mkdirError env eventId baseUrl t0 h0 p dir m
            hdr hmk⟩
        | none =>
          rcases downloadFileWithRetry_no_escape env.fetches t0 hs with
            hok | ⟨m, hm⟩
          · cases hex : env.extract with
            | ok =>
              cases hu : env.unlinkAfterExtractOk with
              | true =>
                exact ⟨_, handler_when_success env eventId baseUrl t0 h0 p dir
                  hdr hmk hok hex hu⟩
              | false =>
                exact ⟨_, handler_when_unlinkFail env eventId baseUrl t0 h0 p dir
                  hdr hmk hok hex hu⟩
            | extractError m =>
              exact ⟨_, handler_when_extractError env eventId baseUrl t0 h0 p dir
                m hdr hmk hok hex⟩
            | readStreamFault m =>
              rw [hex] at hx
              simp [extractEscapes] at hx
          · exact ⟨_, handler_when_downloadError env eventId baseUrl t0 h0 p dir
              m hdr hmk hm⟩

/-- C5: a 2xx response with an HTML content type, a declared length over
1000 and a body carrying one of the authentication markers is classified as
an authentication failure: the attempt throws the authentication message
before the write stream is opened, so nothing is ever written to the
temporary archive (here: a download whose every attempt sees this response
leaves the temporary path empty). -/
theorem html_login_classified_as_auth_failure (r : FetchResponse)
    (h200 : 200 ≤ r.status) (h300 : r.status < 300)
    (hct : strIncludes (r.contentType.getD "") "text/html" = true)
    (n : Nat) (hcl : r.contentLength = some n) (hn : 1000 < n)
    (hmark : strIncludes r.bodyText "login" = true ∨
      strIncludes r.bodyText "redirect" = true ∨
      strIncludes r.bodyText "401" = true ∨
      strIncludes r.bodyText "403" = true ∨
      strIncludes r.bodyText "Unauthorized" = true) :
    attemptStep (FetchOutcome.response r) =
        AttemptStep.failBeforeWrite htmlAuthMsg ∧
      strIncludes htmlAuthMsg "Authentication required" = true ∧
      (downloadFileWithRetry (fun _ => FetchOutcome.response r) false 3).tempExists =
        false := by
  have hstep : attemptStep (FetchOutcome.response r) =
      AttemptStep.failBeforeWrite htmlAuthMsg := by
    have hok : 200 ≤ r.status ∧ r.status < 300 := ⟨h200, h300⟩
    simp only [attemptStep]
    rw [if_neg (not_not_intro hok)]
    have hlen : (match r.contentLength with
        | some n => decide (n > 1000)
        | none => false) = true := by
      rw [hcl]; simpa using hn
    simp only [hct, hlen, Bool.and_self, if_true]
    rcases hmark with h | h | h | h | h <;> simp [h]
  refine ⟨hstep, rfl, ?_⟩
  unfold downloadFileWithRetry
  exact retryGo_tempExists_of_failBeforeWrite _ 3
    (fun _ => ⟨htmlAuthMsg, hstep⟩) 3 1 false []

/-- C5 witness: the concrete login page above is classified as an
authentication failure and nothing reaches the temporary file. -/
theorem html_login_classified_as_auth_failure_witness :
    attemptStep (FetchOutcome.response loginPageResponse) =
        AttemptStep.failBeforeWrite htmlAuthMsg ∧
      strIncludes htmlAuthMsg "Authentication required" = true ∧
      (downloadFileWithRetry (fun _ => FetchOutcome.response loginPageResponse)
          false 3).tempExists = false :=
  html_login_classified_as_auth_failure loginPageResponse (by decide) (by decide)
    rfl 5000 rfl (by decide) (Or.inl rfl)

/-- C4: against an endpoint that answers `500 Internal Server Error` on
every attempt, the retry loop makes exactly 3 attempts and fails with the
`Failed to download after 3 attempts` message — but the backoff sleeps are
2000 ms before the 2nd attempt and 4000 ms before the 3rd
(`Math.pow(2, attempt) * 1000` with `attempt` starting at 1), not the
1 s and 2 s the code's own `1s, 2s, 4s` comment and the specification
announce. -/
theorem retry_three_attempts_backoff :
    (downloadFileWithRetry (fun _ => FetchOutcome.response serverErrorResponse)
        false 3).attemptsMade = 3 ∧
      (downloadFileWithRetry (fun _ => FetchOutcome.response serverErrorResponse)
          false 3).delays = [2000, 4000] ∧
      (downloadFileWithRetry (fun _ => FetchOutcome.response serverErrorResponse)
          false 3).result =
        RetryResult.thrown
          "Failed to download after 3 attempts: Failed to download: 500 Internal Server Error" := by
  refine ⟨rfl, rfl, rfl⟩

/-- C1 counterexample: a download failure after the retry budget is
exhausted returns with the temporary archive still on disk — the
download-failure path of the handler performs no deletion, so a partial
file written before a caught mid-stream reader error survives the call. -/
theorem cleanup_invariant_fails_on_download_failure :
    downloadEventLiveries leftoverTempEnv (some "42") (some "https://example.org")
        false =
      HandlerTermination.returns
        { result := failResult
            "Failed to download after 3 attempts: Failed to download: 500 Internal Server Error"
          configAfter := leftoverTempEnv.configFile
          tempExists := true
          promptShown := false
          mkdirCalled := true
          fetchAttempts := 3
          delays := [2000, 4000] } := by
  rfl

/-- C1 amended: on every returning path, the temporary archive is gone
after the call on the success path, and on the extraction-failure path
whenever the best-effort cleanup unlink succeeds; on the download-failure
path the handler attempts no deletion, so the file's existence is exactly
what the retry loop left behind (it exists when some attempt began
streaming or it pre-existed). -/
theorem cleanup_amended (env : PipelineEnv) (eventId baseUrl : Option String)
    (t0 : Bool) :
    (∀ o, downloadEventLiveries env eventId baseUrl t0 =
        HandlerTermination.returns o →
      o.result.success = true → o.tempExists = false) ∧
    ((jsFalsy eventId || jsFalsy baseUrl) = false →
      (∃ dir, (resolveTargetDirectory env).2 = Except.ok dir) →
      env.mkdirError = none →
      (downloadFileWithRetry env.fetches t0 3).result = RetryResult.ok →
      env.cleanupUnlinkOk = true →
      ∀ o, downloadEventLiveries env eventId baseUrl t0 =
          HandlerTermination.returns o →
        o.tempExists = false) ∧
    ((jsFalsy eventId || jsFalsy baseUrl) = false →
      (∃ dir, (resolveTargetDirectory env).2 = Except.ok dir) →
      env.mkdirError = none →
      (∃ m, (downloadFileWithRetry env.fetches t0 3).result =
        RetryResult.thrown m) →
      ∀ o, downloadEventLiveries env eventId baseUrl t0 =
          HandlerTermination.returns o →
        o.tempExists = (downloadFileWithRetry env.fetches t0 3).tempExists) := by
  refine ⟨?_, ?_, ?_⟩
  · by_cases hfal : (jsFalsy eventId || jsFalsy baseUrl) = true
    · rw [handler_when_missingParams env eventId baseUrl t0 hfal]
      intro o ho hs
      injection ho with h
      subst h
      simp [failResult] at hs
    · have h0 : (jsFalsy eventId || jsFalsy baseUrl) = false := by
        simpa using hfal
      rcases hdr : resolveTargetDirectory env with ⟨p, dirRes⟩
      rcases dirRes with m | dir
      · rw [handler_when_dirError env eventId baseUrl t0 h0 p m hdr]
        intro o ho hs
        injection ho with h
        subst h
        simp [failResult] at hs
      · cases hmk : env.mkdirError with
        | some m =>
          rw [handler_when_mkdirError env eventId baseUrl t0 h0 p dir m hdr hmk]
          intro o ho hs
          injection ho with h
          subst h
          simp [failResult] at hs
        | none =>
          cases hdl : (downloadFileWithRetry env.fetches t0 3).result with
          | thrown m =>
            rw [handler_when_downloadError env eventId baseUrl t0 h0 p dir m hdr
              hmk hdl]
            intro o ho hs
            injection ho with h
            subst h
            simp [failResult] at hs
          | fault m =>
            rw [handler_when_retryFault env eventId baseUrl t0 h0 p dir m hdr
              hmk hdl]
            intro o ho
            cases ho
          | hangs =>
            rw [handler_when_retryHangs env eventId baseUrl t0 h0 p dir hdr
              hmk hdl]
            intro o ho
            cases ho
          | ok =>
            cases hex : env.extract with
            | readStreamFault m =>
              rw [handler_when_readStreamFault env eventId baseUrl t0 h0 p dir m
                hdr hmk hdl hex]
              intro o ho
              cases ho
            | extractError m =>
              rw [handler_when_extractError env eventId baseUrl t0 h0 p dir m hdr
                hmk hdl hex]
              intro o ho hs
              injection ho with h
              subst h
              simp [failResult] at hs
            | ok =>
              cases hu : env.unlinkAfterExtractOk with
              | true =>
                rw [handler_when_success env eventId baseUrl t0 h0 p dir hdr hmk
                  hdl hex hu]
                intro o ho _
                injection ho with h
                subst h
                rfl
              | false =>
                rw [handler_when_unlinkFail env eventId baseUrl t0 h0 p dir hdr
                  hmk hdl hex hu]
                intro o ho hs
                injection ho with h
                subst h
                simp [failResult] at hs
  · intro h0 hexd hmk hok hcl
    obtain ⟨dir, hdir⟩ := hexd
    rcases hdr : resolveTargetDirectory env with ⟨p, dirRes⟩
    rw [hdr] at hdir
    dsimp only at hdir
    subst hdir
    cases hex : env.extract with
    | ok =>
      cases hu : env.unlinkAfterExtractOk with
      | true =>
        rw [handler_when_success env eventId baseUrl t0 h0 p dir hdr hmk hok
          hex hu]
        intro o ho
        injection ho with h
        subst h
        rfl
      | false =>
        rw [handler_when_unlinkFail env eventId baseUrl t0 h0 p dir hdr hmk hok
          hex hu]
        intro o ho
        injection ho with h
        subst h
        simp [hcl]
    | extractError m =>
      rw [handler_when_extractError env eventId baseUrl t0 h0 p dir m hdr hmk
        hok hex]
      intro o ho
      injection ho with h
      subst h
      simp [hcl]
    | readStreamFault m =>
      rw [handler_when_readStreamFault env eventId baseUrl t0 h0 p dir m hdr
        hmk hok hex]
      intro o ho
      cases ho
  · intro h0 hexd hmk hde
    obtain ⟨dir, hdir⟩ := hexd
    obtain ⟨m, hm⟩ := hde
    rcases hdr : resolveTargetDirectory env with ⟨p, dirRes⟩
    rw [hdr] at hdir
    dsimp only at hdir
    subst hdir
    rw [handler_when_downloadError env eventId baseUrl t0 h0 p dir m hdr hmk hm]
    intro o ho
    injection ho with h
    subst h
    rfl

/-- C7 counterexample: download and extraction both succeed (the retry loop
returns normally, the extraction behaves well), yet a failure of the final
unlink flips the handler's result to
`{success: false, message: 'Failed to extract ZIP file: …'}` — the unlink
sits inside the extraction `try`, so its error is caught and rethrown as an
extraction failure. -/
theorem unlink_failure_flips_result :
    unlinkFailEnv.extract = ExtractBehavior.ok ∧
      (downloadFileWithRetry unlinkFailEnv.fetches false 3).result =
        RetryResult.ok ∧
      downloadEventLiveries unlinkFailEnv (some "42") (some "https://example.org")
          false =
        HandlerTermination.returns unlinkFailOutcome ∧
      unlinkFailOutcome.result.success = false ∧
      unlinkFailOutcome.result.message =
        extractFailMsg "EPERM: operation not permitted, unlink" := by
  exact ⟨rfl, rfl, rfl, rfl, rfl⟩

/-- C7 amended: when the final unlink of the temporary archive fails, the
handler does not return success — a returned `{success: true, …}` requires
download, extraction and the final unlink all to succeed. -/
theorem success_requires_final_unlink (env : PipelineEnv)
    (eventId baseUrl : Option String) (t0 : Bool) (o : HandlerOutcome)
    (h : env.unlinkAfterExtractOk = false)
    (ho : downloadEventLiveries env eventId baseUrl t0 =
      HandlerTermination.returns o) :
    o.result.success = false := by
  by_cases hfal : (jsFalsy eventId || jsFalsy baseUrl) = true
  · rw [handler_when_missingParams env eventId baseUrl t0 hfal] at ho
    injection ho with h2
    subst h2
    rfl
  · have h0 : (jsFalsy eventId || jsFalsy baseUrl) = false := by
      simpa using hfal
    rcases hdr : resolveTargetDirectory env with ⟨p, dirRes⟩
    rcases dirRes with m | dir
    · rw [handler_when_dirError env eventId baseUrl t0 h0 p m hdr] at ho
      injection ho with h2
      subst h2
      rfl
    · cases hmk : env.mkdirError with
      | some m =>
        rw [handler_when_mkdirError env eventId baseUrl t0 h0 p dir m hdr hmk]
          at ho
        injection ho with h2
        subst h2
        rfl
      | none =>
        cases hdl : (downloadFileWithRetry env.fetches t0 3).result with
        | thrown m =>
          rw [handler_when_downloadError env eventId baseUrl t0 h0 p dir m hdr
            hmk hdl] at ho
          injection ho with h2
          subst h2
          rfl
        | fault m =>
          rw [handler_when_retryFault env eventId baseUrl t0 h0 p dir m hdr
            hmk hdl] at ho
          cases ho
        | hangs =>
          rw [handler_when_retryHangs env eventId baseUrl t0 h0 p dir hdr
            hmk hdl] at ho
          cases ho
        | ok =>
          cases hex : env.extract with
          | readStreamFault m =>
            rw [handler_when_readStreamFault env eventId baseUrl t0 h0 p dir m
              hdr hmk hdl hex] at ho
            cases ho
          | extractError m =>
            rw [handler_when_extractError env eventId baseUrl t0 h0 p dir m hdr
              hmk hdl hex] at ho
            injection ho with h2
            subst h2
            rfl
          | ok =>
            rw [handler_when_unlinkFail env eventId baseUrl t0 h0 p dir hdr hmk
              hdl hex h] at ho
            injection ho with h2
            subst h2
            rfl

/-- C7 witness: the amended statement at the concrete environment above,
whose handler invocation returns exactly `unlinkFailOutcome`. -/
theorem success_requires_final_unlink_witness :
    unlinkFailOutcome.result.success = false :=
  success_requires_final_unlink unlinkFailEnv (some "42")
    (some "https://example.org") false unlinkFailOutcome rfl rfl

end Attrition
